import Mathlib

/-!
Shallow embedding of the doh-dns resolution engine (src/dns.rs, src/lib.rs).

The transport layer (hyper client, tokio timeout), the URI parser and the
IDNA encoder are external collaborators; they are modelled as oracles:
each server carries the outcome of the one GET attempt made against it,
and the URI-parse and IDNA functions are parameters.
-/

/-- `DnsAnswer` from src/lib.rs: one decoded answer record. -/
structure DnsAnswer where
  name : String
  type : Nat
  TTL : Nat
  data : String
deriving DecidableEq, Repr

/-- `DnsResponse` from src/lib.rs: the decoded JSON envelope. -/
structure DnsResponse where
  Status : Nat
  Answer : Option (List DnsAnswer)
  Comment : Option String
deriving DecidableEq, Repr

/-- Modelled from the spec: `status.rs` (the `RCode` enum and its
`FromPrimitive` conversion) is not under src/.  The spec pins `0 = NoError`
as the only success value, `3` as a recognized nonzero RCode (NXDOMAIN),
and an `Unknown` variant used for unrecognized numeric codes; the remaining
recognized values follow the standard DNS RCode assignments the spec's
glossary refers to. -/
inductive RCode where
  | NoError
  | FormErr
  | ServFail
  | NXDomain
  | NotImp
  | Refused
  | Unknown
deriving DecidableEq, Repr

/-- Modelled from the spec: the `num::FromPrimitive::from_u32` conversion of
a numeric `Status` into an `RCode` (from the missing `status.rs`). -/
def RCode.fromU32 (n : Nat) : Option RCode :=
  if n = 0 then some RCode.NoError
  else if n = 1 then some RCode.FormErr
  else if n = 2 then some RCode.ServFail
  else if n = 3 then some RCode.NXDomain
  else if n = 4 then some RCode.NotImp
  else if n = 5 then some RCode.Refused
  else none

/-- Attempt-level error taxonomy (`QueryError` from the spec's section 7;
every variant and its payload is also visible where src/dns.rs constructs
it). -/
inductive QueryError where
  | InvalidName (e : String)
  | InvalidEndpoint (e : String)
  | Connection (e : String)
  | ReadResponse (e : String)
  | ParseResponse (e : String)
  | BadRequest400
  | PayloadTooLarge413
  | UriTooLong414
  | UnsupportedMediaType415
  | NotImplemented501
  | TooManyRequests429
  | InternalServerError500
  | BadGateway502
  | ResolverTimeout504
  | Unknown
deriving DecidableEq, Repr

/-- Call-level error taxonomy (`DnsError` from the spec's section 7; the
variants used by src/dns.rs are `Query`, `Status`, `NoServers`,
`InvalidRecordType`). -/
inductive DnsError where
  | NoServers
  | Query (e : QueryError)
  | Status (c : RCode)
  | InvalidRecordType
deriving DecidableEq, Repr

/-- Outcome of reading and JSON-decoding the body of a 200 response:
`hyper::body::to_bytes` may fail, and `serde_json::from_slice` may fail. -/
inductive BodyResult where
  | readErr (e : String)
  | bytes (parsed : Except String DnsResponse)
deriving Repr

/-- Outcome of `timeout(server.timeout(), self.client.get(endpoint))` for one
server: the timer may elapse first, the GET may fail at connection level, or
an HTTP response with some status arrives (its body is only examined when the
status is 200). -/
inductive TransportOutcome where
  | timedOut
  | connErr (e : String)
  | response (status : Nat) (body : BodyResult)
deriving Repr

/-- One configured server together with the (oracle) outcome of the single
GET attempt src/dns.rs would make against it.  `timeoutDesc` is the Debug
rendering of the server's timeout used in the timeout error message. -/
structure ServerBehavior where
  uri : String
  timeoutDesc : String
  outcome : TransportOutcome
deriving Repr

/-- Classification of one server attempt inside the loop of
`client_request`: return `Ok`, return `Err` immediately, or record the error
and continue with the next server. -/
inductive StepResult where
  | success (res : DnsResponse)
  | terminal (e : QueryError)
  | retry (e : QueryError)
deriving DecidableEq, Repr

/-- The `match res.status().as_u16()` / timeout / connection dispatch of
src/dns.rs lines 106-137, for one attempt. -/
def attemptStep (timeoutDesc : String) : TransportOutcome → StepResult
  | TransportOutcome.timedOut =>
      StepResult.retry (QueryError.Connection ("connection timeout after " ++ timeoutDesc))
  | TransportOutcome.connErr e => StepResult.retry (QueryError.Connection e)
  | TransportOutcome.response status body =>
      if status = 200 then
        match body with
        | BodyResult.readErr e => StepResult.retry (QueryError.ReadResponse e)
        | BodyResult.bytes (Except.error e) => StepResult.retry (QueryError.ParseResponse e)
        | BodyResult.bytes (Except.ok res) => StepResult.success res
      else if status = 400 then StepResult.terminal QueryError.BadRequest400
      else if status = 413 then StepResult.terminal QueryError.PayloadTooLarge413
      else if status = 414 then StepResult.terminal QueryError.UriTooLong414
      else if status = 415 then StepResult.terminal QueryError.UnsupportedMediaType415
      else if status = 501 then StepResult.terminal QueryError.NotImplemented501
      else if status = 429 then StepResult.retry QueryError.TooManyRequests429
      else if status = 500 then StepResult.retry QueryError.InternalServerError500
      else if status = 502 then StepResult.retry QueryError.BadGateway502
      else if status = 504 then StepResult.retry QueryError.ResolverTimeout504
      else StepResult.retry QueryError.Unknown

/-- The query URL built in src/dns.rs line 100:
`format!("{}?name={}&type={}", server.uri(), name, rtype.1)`. -/
def buildUrl (uri name typeName : String) : String :=
  uri ++ "?name=" ++ name ++ "&type=" ++ typeName

/-- The `for server in self.servers.iter()` loop of `client_request`
(src/dns.rs lines 98-140), with the accumulated `error` variable threaded
explicitly.  The second component instruments the loop with the list of URLs
for which a GET was actually issued, in order; the source does not compute
it, it only makes the contact trace observable. -/
def clientRequestLoop (parseUri : String → Except String Unit) (name typeName : String) :
    List ServerBehavior → QueryError → Except QueryError DnsResponse × List String
  | [], err => (Except.error err, [])
  | b :: rest, err =>
    let url := buildUrl b.uri name typeName
    match parseUri url with
    | Except.error e => (Except.error (QueryError.InvalidEndpoint e), [])
    | Except.ok _ =>
      match attemptStep b.timeoutDesc b.outcome with
      | StepResult.success res => (Except.ok res, [url])
      | StepResult.terminal e => (Except.error e, [url])
      | StepResult.retry e =>
        let r := clientRequestLoop parseUri name typeName rest e
        (r.fst, url :: r.snd)

/-- `client_request` (src/dns.rs lines 92-141): IDNA-encode the name (the
`idna` oracle stands for `idna::domain_to_ascii`, its error side already
Debug-formatted), then run the server loop with `error` initialized to
`QueryError::Unknown`. -/
def clientRequest (idna : String → Except String String)
    (parseUri : String → Except String Unit) (name typeName : String)
    (servers : List ServerBehavior) : Except QueryError DnsResponse × List String :=
  match idna name with
  | Except.error e => (Except.error (QueryError.InvalidName e), [])
  | Except.ok ascii => clientRequestLoop parseUri ascii typeName servers QueryError.Unknown

/-- The body of `request_and_process` after `client_request` returns
(src/dns.rs lines 73-87): wrap attempt errors as `DnsError::Query`, dispatch
on the decoded `Status`, and filter answers by the requested type (with the
ANY = 0 exception).  An `Rtype` is a `(code, name)` pair as in src/dns.rs
line 144. -/
def processResponse (rtype : Nat × String) :
    Except QueryError DnsResponse → Except DnsError (List DnsAnswer)
  | Except.error e => Except.error (DnsError.Query e)
  | Except.ok res =>
    match RCode.fromU32 res.Status with
    | some RCode.NoError =>
      Except.ok ((res.Answer.getD []).filter fun a => a.type == rtype.fst || rtype.fst == 0)
    | some code => Except.error (DnsError.Status code)
    | none => Except.error (DnsError.Status RCode.Unknown)

/-- `request_and_process` (src/dns.rs lines 68-88): `client_request`
followed by `processResponse`. -/
def requestAndProcess (idna : String → Except String String)
    (parseUri : String → Except String Unit) (name : String) (rtype : Nat × String)
    (servers : List ServerBehavior) : Except DnsError (List DnsAnswer) × List String :=
  let r := clientRequest idna parseUri name rtype.snd servers
  (processResponse rtype r.fst, r.snd)

/-- `RTYPE_mx` (src/dns.rs: `Rtype(15, "mx")`). -/
def RTYPE_mx : Nat × String := (15, "mx")

/-- `RTYPE_aaaa` (src/dns.rs: `Rtype(28, "aaaa")`). -/
def RTYPE_aaaa : Nat × String := (28, "aaaa")

/-- Rust `char::is_ascii_whitespace`: space, tab, line feed, carriage
return, form feed. -/
def isAsciiWs (c : Char) : Bool :=
  c = ' ' ∨ c = '\t' ∨ c = '\n' ∨ c = '\r' ∨ c = '\x0c'

/-- Splits a character list at ASCII whitespace, dropping empty tokens;
`acc` holds the current token reversed. -/
def splitWsChars : List Char → List Char → List (List Char)
  | [], acc => if acc = [] then [] else [acc.reverse]
  | c :: rest, acc =>
    if isAsciiWs c then
      (if acc = [] then [] else [acc.reverse]) ++ splitWsChars rest []
    else splitWsChars rest (c :: acc)

/-- Rust `str::split_ascii_whitespace`: the non-empty maximal runs of
non-whitespace characters, in order. -/
def splitAsciiWhitespace (s : String) : List String :=
  (splitWsChars s.data []).map List.asString

/-- Decimal value of a digit list (accumulator form). -/
def digitsToNat : List Char → Nat → Nat
  | [], acc => acc
  | c :: rest, acc => digitsToNat rest (acc * 10 + (c.toNat - 48))

/-- Rust `str::parse::<u32>()`: one optional leading `+`, then at least one
ASCII digit and nothing else, with the value below `2^32`. -/
def parseU32 (s : String) : Option Nat :=
  let t := match s.data with
    | '+' :: rest => rest
    | l => l
  if t ≠ [] ∧ t.all Char.isDigit then
    let n := digitsToNat t 0
    if n < 2 ^ 32 then some n else none
  else none

/-- Rust `str::to_ascii_lowercase`: map the letters A-Z to a-z, leaving all
other characters unchanged. -/
def toAsciiLower (s : String) : String :=
  (s.data.map fun c => if 'A' ≤ c ∧ c ≤ 'Z' then Char.ofNat (c.toNat + 32) else c).asString

/-- The `filter_map` closure of `resolve_mx_and_sort` (src/dns.rs lines
36-54): keep only type-15 answers whose `data` has a first token parsing as
`u32` and a second token; rewrite `data` to that second token and pair the
answer with the parsed priority. -/
def mxExtract (a : DnsAnswer) : Option (DnsAnswer × Nat) :=
  if a.type = RTYPE_mx.fst then
    match splitAsciiWhitespace a.data with
    | part1 :: rest =>
      match parseU32 part1 with
      | some priority =>
        match rest with
        | mx :: _ => some ({ a with data := mx }, priority)
        | [] => none
      | none => none
    | [] => none
  else none

/-- The `(answer, priority)` pairs collected by `resolve_mx_and_sort` before
sorting (src/dns.rs lines 32-55). -/
def mxPairs (answers : List DnsAnswer) : List (DnsAnswer × Nat) :=
  answers.filterMap mxExtract

/-- Contract of `mxs.sort_unstable_by_key(|x| x.1)` followed by
`.map(|x| x.0)` (src/dns.rs lines 57-58): `l` is the `fst`-projection of
some permutation of `pairs` that is non-decreasing in the priority key.
`sort_unstable_by_key` promises exactly a sorted permutation and may reorder
equal keys, so the embedding is this relation rather than one algorithm. -/
def mxSortSpec (pairs : List (DnsAnswer × Nat)) (l : List DnsAnswer) : Prop :=
  ∃ ps, pairs.Perm ps ∧ ps.Sorted (fun x y => x.snd ≤ y.snd) ∧ l = ps.map Prod.fst

/-- The body of `resolve_mx_and_sort` after `client_request` returns
(src/dns.rs lines 28-63): error wrapping and `Status` dispatch exactly as
in the source; the success value is any list admitted by the
`sort_unstable_by_key` contract. -/
def mxDispatch (r : Except QueryError DnsResponse)
    (out : Except DnsError (List DnsAnswer)) : Prop :=
  match r with
  | Except.error e => out = Except.error (DnsError.Query e)
  | Except.ok res =>
    match RCode.fromU32 res.Status with
    | some RCode.NoError => ∃ l, mxSortSpec (mxPairs (res.Answer.getD [])) l ∧ out = Except.ok l
    | some code => out = Except.error (DnsError.Status code)
    | none => out = Except.error (DnsError.Status RCode.Unknown)

/-- `resolve_mx_and_sort` (src/dns.rs lines 27-64) as a relation between the
oracle environment and the returned value. -/
def resolveMxRel (idna : String → Except String String)
    (parseUri : String → Except String Unit) (domain : String)
    (servers : List ServerBehavior) (out : Except DnsError (List DnsAnswer)) : Prop :=
  mxDispatch (clientRequest idna parseUri domain RTYPE_mx.snd servers).fst out

/-- The record-type registry generated by the `rtypes!` macro invocation
(src/dns.rs lines 192-249), in source order. -/
def rtypes : List (String × Nat) :=
  [("a", 1), ("aaaa", 28), ("any", 0), ("caa", 257), ("cds", 59), ("cert", 37),
   ("cname", 5), ("dname", 39), ("dnskey", 48), ("ds", 43), ("hinfo", 13),
   ("ipseckey", 45), ("mx", 15), ("naptr", 35), ("ns", 2), ("nsec", 47),
   ("nsec3", 50), ("nsec3param", 51), ("ptr", 12), ("rp", 17), ("rrsig", 46),
   ("soa", 6), ("spf", 99), ("srv", 33), ("sshfp", 44), ("tlsa", 52),
   ("txt", 16), ("wks", 11)]

/-- `resolve_str_type` (src/dns.rs lines 162-169): lowercase the requested
type name, dispatch to the per-type resolver of the matching registry entry,
or fail with `InvalidRecordType`.  Each generated `resolve_<t>` is
`request_and_process` at `RTYPE_<t>`, so dispatch is a registry lookup. -/
def resolveStrType (idna : String → Except String String)
    (parseUri : String → Except String Unit) (name rtype : String)
    (servers : List ServerBehavior) : Except DnsError (List DnsAnswer) × List String :=
  match rtypes.lookup (toAsciiLower rtype) with
  | some code => requestAndProcess idna parseUri name (code, toAsciiLower rtype) servers
  | none => (Except.error DnsError.InvalidRecordType, [])

/-- The generated `resolve_aaaa` (src/dns.rs lines 157-159 instantiated at
`RTYPE_aaaa`). -/
def resolve_aaaa (idna : String → Except String String)
    (parseUri : String → Except String Unit) (name : String)
    (servers : List ServerBehavior) : Except DnsError (List DnsAnswer) × List String :=
  requestAndProcess idna parseUri name RTYPE_aaaa servers

/-- The terminal-status arm of the `match` in src/dns.rs lines 119-123:
which HTTP statuses return a `QueryError` immediately, and which error. -/
def terminalStatusError (c : Nat) : Option QueryError :=
  if c = 400 then some QueryError.BadRequest400
  else if c = 413 then some QueryError.PayloadTooLarge413
  else if c = 414 then some QueryError.UriTooLong414
  else if c = 415 then some QueryError.UnsupportedMediaType415
  else if c = 501 then some QueryError.NotImplemented501
  else none

/-- The `Status` dispatch shared by `resolve_mx_and_sort` and
`request_and_process` (src/dns.rs lines 30, 60-61, 75, 84-85): `none` means
the success (`NoError`) branch, `some c` the status error raised. -/
def statusError (n : Nat) : Option RCode :=
  match RCode.fromU32 n with
  | some RCode.NoError => none
  | some c => some c
  | none => some RCode.Unknown

/-- A server on which the loop of `client_request` continues to the next
server: its URL parses and its attempt classifies as a retryable failure. -/
def retryableServer (parseUri : String → Except String Unit) (name typeName : String)
    (b : ServerBehavior) : Prop :=
  parseUri (buildUrl b.uri name typeName) = Except.ok () ∧
    ∃ e, attemptStep b.timeoutDesc b.outcome = StepResult.retry e

/-- The value of the mutable `error` variable of `client_request` after the
loop has passed over the given servers (each of which must have taken the
`retry` path for this to describe the loop; non-retry steps return). -/
def threadErr : List ServerBehavior → QueryError → QueryError
  | [], err => err
  | b :: rest, err =>
    threadErr rest
      (match attemptStep b.timeoutDesc b.outcome with
       | StepResult.retry e => e
       | _ => err)

/-! ## Concrete fixtures used by witnesses and counterexamples -/

/-- IDNA oracle for all-ASCII inputs: encoding is the identity. -/
def idnaOk : String → Except String String := fun s => Except.ok s

/-- URI-parse oracle for well-formed endpoints: every built URL parses. -/
def parseUriOk : String → Except String Unit := fun _ => Except.ok ()

/-- A server whose attempt yields a parsed 200 response. -/
def okServer (uri : String) (res : DnsResponse) : ServerBehavior :=
  { uri := uri, timeoutDesc := "3s",
    outcome := TransportOutcome.response 200 (BodyResult.bytes (Except.ok res)) }

/-- A server whose attempt yields a bare HTTP status (body unexamined). -/
def statusServer (uri : String) (c : Nat) : ServerBehavior :=
  { uri := uri, timeoutDesc := "3s",
    outcome := TransportOutcome.response c (BodyResult.readErr "") }

/-- Type-1 (A) answer fixture. -/
def ansA : DnsAnswer :=
  { name := "example.com", type := 1, TTL := 300, data := "93.184.216.34" }

/-- Type-5 (CNAME) answer fixture. -/
def ansCname : DnsAnswer :=
  { name := "example.com", type := 5, TTL := 300, data := "alias.example.com" }

/-- MX answer with priority 5, from the spec's MX sort vector. -/
def ansMx5 : DnsAnswer :=
  { name := "example.com", type := 15, TTL := 300, data := "5 mx1.example.com" }

/-- MX answer with priority 10, from the spec's MX sort vector. -/
def ansMx10 : DnsAnswer :=
  { name := "example.com", type := 15, TTL := 300, data := "10 mx2.example.com" }

/-- MX answer whose data has three tokens. -/
def ansMx3tok : DnsAnswer :=
  { name := "example.com", type := 15, TTL := 300, data := "10 mail.example.com extra" }

/-- First-decoded MX answer with priority 10. -/
def ansMxEqB : DnsAnswer :=
  { name := "example.com", type := 15, TTL := 300, data := "10 b.example.com" }

/-- Second-decoded MX answer, same priority 10. -/
def ansMxEqA : DnsAnswer :=
  { name := "example.com", type := 15, TTL := 300, data := "10 a.example.com" }

/-- `ansMxEqA` after MX processing (priority stripped). -/
def mxEqApost : DnsAnswer :=
  { name := "example.com", type := 15, TTL := 300, data := "a.example.com" }

/-- `ansMxEqB` after MX processing (priority stripped). -/
def mxEqBpost : DnsAnswer :=
  { name := "example.com", type := 15, TTL := 300, data := "b.example.com" }

/-- `ansMx5` after MX processing (priority stripped). -/
def mxVec5post : DnsAnswer :=
  { name := "example.com", type := 15, TTL := 300, data := "mx1.example.com" }

/-- `ansMx10` after MX processing (priority stripped). -/
def mxVec10post : DnsAnswer :=
  { name := "example.com", type := 15, TTL := 300, data := "mx2.example.com" }

/-- `ansMx3tok` after MX processing: `data` is exactly the second token. -/
def mx3tokPost : DnsAnswer :=
  { name := "example.com", type := 15, TTL := 300, data := "mail.example.com" }

/-- Status-0 response carrying one A and one CNAME answer. -/
def respFilter : DnsResponse :=
  { Status := 0, Answer := some [ansA, ansCname], Comment := none }

/-- Status-0 response with the `Answer` field absent. -/
def respEmpty : DnsResponse :=
  { Status := 0, Answer := none, Comment := none }

/-- Status-3 (NXDOMAIN) response. -/
def respNx : DnsResponse :=
  { Status := 3, Answer := none, Comment := none }

/-- Response with an unrecognized numeric Status. -/
def respUnrec : DnsResponse :=
  { Status := 77, Answer := none, Comment := none }

/-- Status-0 response with the spec's MX sort vector, decoded order
`[priority 10, priority 5]`. -/
def respMxVec : DnsResponse :=
  { Status := 0, Answer := some [ansMx10, ansMx5], Comment := none }

/-- Status-0 response with two MX answers of equal priority, decoded order
`[ansMxEqB, ansMxEqA]`. -/
def respMxEq : DnsResponse :=
  { Status := 0, Answer := some [ansMxEqB, ansMxEqA], Comment := none }

/-! ## Lemmas about the failover loop -/

/-- Unfolding one retryable iteration of the server loop. -/
theorem clientRequestLoop_cons_retry (parseUri : String → Except String Unit)
    (name typeName : String) (b : ServerBehavior) (rest : List ServerBehavior)
    (err e : QueryError)
    (hp : parseUri (buildUrl b.uri name typeName) = Except.ok ())
    (hr : attemptStep b.timeoutDesc b.outcome = StepResult.retry e) :
    clientRequestLoop parseUri name typeName (b :: rest) err =
      ((clientRequestLoop parseUri name typeName rest e).fst,
       buildUrl b.uri name typeName :: (clientRequestLoop parseUri name typeName rest e).snd) := by
  simp [clientRequestLoop, hp, hr]

/-- Unfolding one successful iteration of the server loop. -/
theorem clientRequestLoop_cons_success (parseUri : String → Except String Unit)
    (name typeName : String) (b : ServerBehavior) (rest : List ServerBehavior)
    (err : QueryError) (res : DnsResponse)
    (hp : parseUri (buildUrl b.uri name typeName) = Except.ok ())
    (hr : attemptStep b.timeoutDesc b.outcome = StepResult.success res) :
    clientRequestLoop parseUri name typeName (b :: rest) err =
      (Except.ok res, [buildUrl b.uri name typeName]) := by
  simp [clientRequestLoop, hp, hr]

/-- Unfolding one terminal iteration of the server loop. -/
theorem clientRequestLoop_cons_terminal (parseUri : String → Except String Unit)
    (name typeName : String) (b : ServerBehavior) (rest : List ServerBehavior)
    (err e : QueryError)
    (hp : parseUri (buildUrl b.uri name typeName) = Except.ok ())
    (hr : attemptStep b.timeoutDesc b.outcome = StepResult.terminal e) :
    clientRequestLoop parseUri name typeName (b :: rest) err =
      (Except.error e, [buildUrl b.uri name typeName]) := by
  simp [clientRequestLoop, hp, hr]

/-- A block of retryable servers at the front of the loop is traversed in
order: the loop continues on the remaining servers with the accumulated
error updated, and exactly the URLs of the traversed block are contacted
first. -/
theorem clientRequestLoop_skip (parseUri : String → Except String Unit)
    (name typeName : String) :
    ∀ (pre rest : List ServerBehavior) (err : QueryError),
      (∀ b ∈ pre, retryableServer parseUri name typeName b) →
      clientRequestLoop parseUri name typeName (pre ++ rest) err =
        ((clientRequestLoop parseUri name typeName rest (threadErr pre err)).fst,
         pre.map (fun b => buildUrl b.uri name typeName) ++
           (clientRequestLoop parseUri name typeName rest (threadErr pre err)).snd)
  | [], rest, err, _ => by simp [threadErr]
  | b :: pre, rest, err, h => by
    obtain ⟨hp, e, hr⟩ := h b (List.mem_cons_self b pre)
    have ih := clientRequestLoop_skip parseUri name typeName pre rest e
      (fun x hx => h x (List.mem_cons_of_mem _ hx))
    have ht : threadErr (b :: pre) err = threadErr pre e := by
      simp [threadErr, hr]
    rw [List.cons_append,
      clientRequestLoop_cons_retry parseUri name typeName b (pre ++ rest) err e hp hr, ih, ht]
    simp

/-- Threading the accumulated error distributes over list append. -/
theorem threadErr_append (xs ys : List ServerBehavior) (err : QueryError) :
    threadErr (xs ++ ys) err = threadErr ys (threadErr xs err) := by
  induction xs generalizing err with
  | nil => simp [threadErr]
  | cons b xs ih => simp [threadErr, ih]

/-- A terminal HTTP status makes the attempt classification terminal with
the corresponding error, whatever the body holds. -/
theorem attemptStep_terminal (d : String) (c : Nat) (body : BodyResult) (e : QueryError)
    (h : terminalStatusError c = some e) :
    attemptStep d (TransportOutcome.response c body) = StepResult.terminal e := by
  unfold terminalStatusError at h
  split_ifs at h with h1 h2 h3 h4 h5 <;>
    simp_all [attemptStep]

/-! ## Lemmas about sorted permutations of MX pairs -/

/-- A list non-decreasing in its priority keys whose keys are pairwise
distinct is strictly increasing in the keys. -/
theorem pairwise_lt_of_sorted_nodup :
    ∀ (l : List (DnsAnswer × Nat)), l.Sorted (fun x y => x.snd ≤ y.snd) →
      (l.map Prod.snd).Nodup → l.Pairwise (fun x y => x.snd < y.snd)
  | [], _, _ => List.Pairwise.nil
  | a :: l, hs, hn => by
    rw [List.sorted_cons] at hs
    obtain ⟨ha, hs'⟩ := hs
    rw [List.map_cons, List.nodup_cons] at hn
    obtain ⟨hna, hn'⟩ := hn
    refine List.Pairwise.cons ?_ (pairwise_lt_of_sorted_nodup l hs' hn')
    intro b hb
    refine lt_of_le_of_ne (ha b hb) ?_
    intro hcontra
    exact hna (by rw [hcontra]; exact List.mem_map_of_mem Prod.snd hb)

/-- Two sorted permutations of the same pair list are equal when the
priority keys are pairwise distinct. -/
theorem mxSort_unique (pairs ps qs : List (DnsAnswer × Nat))
    (hk : (pairs.map Prod.snd).Nodup)
    (h1 : pairs.Perm ps) (s1 : ps.Sorted (fun x y => x.snd ≤ y.snd))
    (h2 : pairs.Perm qs) (s2 : qs.Sorted (fun x y => x.snd ≤ y.snd)) : ps = qs := by
  haveI : IsAntisymm (DnsAnswer × Nat) (fun x y => x.snd < y.snd) :=
    ⟨fun a b hab hba => absurd (lt_trans hab hba) (lt_irrefl _)⟩
  have hk1 : (ps.map Prod.snd).Nodup := ((h1.map Prod.snd).nodup_iff).mp hk
  have hk2 : (qs.map Prod.snd).Nodup := ((h2.map Prod.snd).nodup_iff).mp hk
  exact List.eq_of_perm_of_sorted (h1.symm.trans h2)
    (pairwise_lt_of_sorted_nodup ps s1 hk1) (pairwise_lt_of_sorted_nodup qs s2 hk2)

/-! ## Claim theorems -/

/-- C1 (amended): every value a successful MX resolve can return lists the
extracted answers in ascending order of the parsed priority with the
priority removed from `data`, as the `fst`-projection of a sorted
permutation of the extracted pairs; when the priorities are pairwise
distinct this output is uniquely determined.  (The original claim further
required a stable sort; `sort_unstable_by_key` gives no such guarantee, see
the counterexample.) -/
theorem mx_resolve_sorted_amended (idna : String → Except String String)
    (parseUri : String → Except String Unit) (domain : String)
    (servers : List ServerBehavior) (res : DnsResponse)
    (out : Except DnsError (List DnsAnswer))
    (hres : (clientRequest idna parseUri domain RTYPE_mx.snd servers).fst = Except.ok res)
    (hst : res.Status = 0)
    (hrel : resolveMxRel idna parseUri domain servers out) :
    ∃ ps, (mxPairs (res.Answer.getD [])).Perm ps ∧
      ps.Sorted (fun x y => x.snd ≤ y.snd) ∧ out = Except.ok (ps.map Prod.fst) ∧
      (((mxPairs (res.Answer.getD [])).map Prod.snd).Nodup →
        ∀ outB, resolveMxRel idna parseUri domain servers outB → outB = out) := by
  unfold resolveMxRel at hrel
  rw [hres] at hrel
  simp only [mxDispatch, hst, RCode.fromU32, if_pos rfl] at hrel
  obtain ⟨l, ⟨ps, hperm, hsort, hl⟩, hout⟩ := hrel
  refine ⟨ps, hperm, hsort, by rw [hout, hl], ?_⟩
  intro hk outB hrelB
  unfold resolveMxRel at hrelB
  rw [hres] at hrelB
  simp only [mxDispatch, hst, RCode.fromU32, if_pos rfl] at hrelB
  obtain ⟨lB, ⟨qs, hpermB, hsortB, hlB⟩, houtB⟩ := hrelB
  have hq : qs = ps := mxSort_unique _ _ _ hk hpermB hsortB hperm hsort
  rw [houtB, hout, hl, hlB, hq]

/-- C1 witness: the spec's MX sort vector.  Decoded data tokens
`"10 mx2.example.com"` then `"5 mx1.example.com"` yield output
`[mx1.example.com, mx2.example.com]` with the priorities removed, and with
distinct priorities this is the only admitted output. -/
theorem mx_resolve_sorted_amended_witness :
    ∃ ps, (mxPairs (respMxVec.Answer.getD [])).Perm ps ∧
      ps.Sorted (fun x y => x.snd ≤ y.snd) ∧
      (Except.ok [mxVec5post, mxVec10post] : Except DnsError (List DnsAnswer)) =
        Except.ok (ps.map Prod.fst) ∧
      (((mxPairs (respMxVec.Answer.getD [])).map Prod.snd).Nodup →
        ∀ outB, resolveMxRel idnaOk parseUriOk "example.com"
          [okServer "https://dns.google/resolve" respMxVec] outB →
          outB = Except.ok [mxVec5post, mxVec10post]) :=
  mx_resolve_sorted_amended idnaOk parseUriOk "example.com"
    [okServer "https://dns.google/resolve" respMxVec] respMxVec
    (Except.ok [mxVec5post, mxVec10post]) rfl rfl
    (by
      show ∃ l, mxSortSpec (mxPairs [ansMx10, ansMx5]) l ∧
        (Except.ok [mxVec5post, mxVec10post] : Except DnsError (List DnsAnswer)) = Except.ok l
      refine ⟨[mxVec5post, mxVec10post],
        ⟨[(mxVec5post, 5), (mxVec10post, 10)], ?_, by decide, rfl⟩, rfl⟩
      have h : mxPairs [ansMx10, ansMx5] = [(mxVec10post, 10), (mxVec5post, 5)] := by decide
      rw [h]
      exact List.Perm.swap (mxVec5post, 5) (mxVec10post, 10) [])

/-- C1 counterexample: with two MX answers of equal priority decoded in the
order `[ansMxEqB, ansMxEqA]`, the `sort_unstable_by_key` contract admits the
output `[a.example.com, b.example.com]`, which reverses the decoded relative
order of the equal-priority answers; the claimed stable order would be
`[b.example.com, a.example.com]`.  The sort is therefore not guaranteed
stable. -/
theorem mx_stable_sort_counterexample :
    resolveMxRel idnaOk parseUriOk "example.com"
      [okServer "https://dns.google/resolve" respMxEq]
      (Except.ok [mxEqApost, mxEqBpost]) ∧
    ([mxEqApost, mxEqBpost] : List DnsAnswer) ≠ [mxEqBpost, mxEqApost] := by
  constructor
  · show mxDispatch (Except.ok respMxEq) (Except.ok [mxEqApost, mxEqBpost])
    show ∃ l, mxSortSpec (mxPairs [ansMxEqB, ansMxEqA]) l ∧
      (Except.ok [mxEqApost, mxEqBpost] : Except DnsError (List DnsAnswer)) = Except.ok l
    refine ⟨[mxEqApost, mxEqBpost], ⟨[(mxEqApost, 10), (mxEqBpost, 10)], ?_, ?_, rfl⟩, rfl⟩
    · have h : mxPairs [ansMxEqB, ansMxEqA] = [(mxEqBpost, 10), (mxEqApost, 10)] := by decide
      rw [h]
      exact List.Perm.swap (mxEqApost, 10) (mxEqBpost, 10) []
    · decide
  · decide

/-- Characterization of the MX `filter_map` closure: it yields `some` for an
answer exactly when the answer has type 15, its `data` splits into at least
two ASCII-whitespace tokens, and the first token parses as `u32`; the
produced answer has `data` set to exactly the second token. -/
theorem mxExtract_eq_some (a b : DnsAnswer) (pr : Nat) :
    mxExtract a = some (b, pr) ↔
      a.type = 15 ∧ ∃ t1 t2 rest, splitAsciiWhitespace a.data = t1 :: t2 :: rest ∧
        parseU32 t1 = some pr ∧ b = { a with data := t2 } := by
  constructor
  · intro hc
    unfold mxExtract at hc
    split at hc
    next ht =>
      split at hc
      next part1 rest1 hsplit =>
        split at hc
        next priority hp =>
          split at hc
          next mx tail hrest =>
            injection hc with hc1
            injection hc1 with hcb hcpr
            refine ⟨ht, part1, tail, hrest, hsplit, ?_, hcb.symm⟩
            rw [hp, hcpr]
          next => cases hc
        next => cases hc
      next => cases hc
    next => cases hc
  · rintro ⟨ht, t1, t2, rest, hsplit, hp, hb⟩
    have hcalc : mxExtract a = some ({ a with data := t2 }, pr) := by
      unfold mxExtract
      rw [if_pos (show a.type = RTYPE_mx.fst from ht), hsplit]
      show (match parseU32 t1 with
        | some priority => some ({ a with data := t2 }, priority)
        | none => none) = some ({ a with data := t2 }, pr)
      rw [hp]
    rw [hcalc, hb]

/-- C2 (amended): MX extraction retains exactly the answers with type 15
whose data's first whitespace-delimited token parses as an unsigned integer
and which have a second token; for each retained answer, `data` is rewritten
to exactly the second token (not to the remainder of the data from the
second token onward); all other entries are dropped. -/
theorem mx_extraction_characterization (answers : List DnsAnswer) (b : DnsAnswer) (pr : Nat) :
    (b, pr) ∈ mxPairs answers ↔
      ∃ a ∈ answers, a.type = 15 ∧ ∃ t1 t2 rest,
        splitAsciiWhitespace a.data = t1 :: t2 :: rest ∧ parseU32 t1 = some pr ∧
        b = { a with data := t2 } := by
  simp only [mxPairs, List.mem_filterMap]
  constructor
  · rintro ⟨a, ha, he⟩
    exact ⟨a, ha, (mxExtract_eq_some a b pr).mp he⟩
  · rintro ⟨a, ha, hc⟩
    exact ⟨a, ha, (mxExtract_eq_some a b pr).mpr hc⟩

/-- C2 counterexample: on the three-token MX data
`"10 mail.example.com extra"`, the extraction rewrites `data` to the second
token `"mail.example.com"`, not to the claimed second-token-onward remainder
`"mail.example.com extra"`. -/
theorem mx_second_token_counterexample :
    mxPairs [ansMx3tok] = [(mx3tokPost, 10)] ∧
      mx3tokPost.data ≠ "mail.example.com extra" :=
  ⟨by decide, by decide⟩

/-- `client_request` under a successful IDNA encoding is the server loop on
the encoded name. -/
theorem clientRequest_eval (idna : String → Except String String)
    (parseUri : String → Except String Unit) (name ascii typeName : String)
    (servers : List ServerBehavior)
    (hname : idna name = Except.ok ascii) :
    clientRequest idna parseUri name typeName servers =
      clientRequestLoop parseUri ascii typeName servers QueryError.Unknown := by
  simp only [clientRequest, hname]

/-- C3: when the servers before `s` all fail retryably and `s` answers with
an HTTP status in {400, 413, 414, 415, 501}, the resolve call fails
immediately with the corresponding terminal query error and the contact
trace stops at `s`: no subsequent server is contacted. -/
theorem terminal_status_short_circuits
    (idna : String → Except String String) (parseUri : String → Except String Unit)
    (name ascii : String) (rtype : Nat × String)
    (pre post : List ServerBehavior) (s : ServerBehavior) (c : Nat) (body : BodyResult)
    (e : QueryError)
    (hname : idna name = Except.ok ascii)
    (hpre : ∀ b ∈ pre, retryableServer parseUri ascii rtype.snd b)
    (hparse : parseUri (buildUrl s.uri ascii rtype.snd) = Except.ok ())
    (hout : s.outcome = TransportOutcome.response c body)
    (hterm : terminalStatusError c = some e) :
    requestAndProcess idna parseUri name rtype (pre ++ s :: post) =
      (Except.error (DnsError.Query e),
       pre.map (fun b => buildUrl b.uri ascii rtype.snd) ++ [buildUrl s.uri ascii rtype.snd]) := by
  have hstep : attemptStep s.timeoutDesc s.outcome = StepResult.terminal e := by
    rw [hout]
    exact attemptStep_terminal s.timeoutDesc c body e hterm
  have hcr : clientRequest idna parseUri name rtype.snd (pre ++ s :: post) =
      (Except.error e,
       pre.map (fun b => buildUrl b.uri ascii rtype.snd) ++ [buildUrl s.uri ascii rtype.snd]) := by
    rw [clientRequest_eval idna parseUri name ascii rtype.snd _ hname]
    rw [clientRequestLoop_skip parseUri ascii rtype.snd pre (s :: post) QueryError.Unknown hpre]
    rw [clientRequestLoop_cons_terminal parseUri ascii rtype.snd s post
      (threadErr pre QueryError.Unknown) e hparse hstep]
  simp only [requestAndProcess, hcr]
  simp [processResponse]

/-- C3 witness: server1 answers HTTP 400; the call fails with
`Query BadRequest400` and only server1's URL is contacted, although a
second server is configured. -/
theorem terminal_status_short_circuits_witness :
    requestAndProcess idnaOk parseUriOk "example.com" (1, "a")
      (statusServer "https://one.example/resolve" 400 ::
        [okServer "https://two.example/resolve" respFilter]) =
      (Except.error (DnsError.Query QueryError.BadRequest400),
       ["https://one.example/resolve?name=example.com&type=a"]) :=
  terminal_status_short_circuits idnaOk parseUriOk "example.com" "example.com" (1, "a")
    [] [okServer "https://two.example/resolve" respFilter]
    (statusServer "https://one.example/resolve" 400) 400 (BodyResult.readErr "")
    QueryError.BadRequest400 rfl (fun b hb => absurd hb (List.not_mem_nil b)) rfl rfl rfl

/-- C4: servers are attempted strictly in configured order and retryable
outcomes advance to the next server.  First conjunct: when every server
before `s` fails retryably and `s` answers 200 with a decoded `Status = 0`
response, the call succeeds with `s`'s processed answers and the contact
trace lists the URLs of the preceding servers, in order, followed by `s`'s
URL.  Second conjunct: connection failure, per-server timeout, HTTP
429/500/502/504, an unmatched HTTP status, and body-read/JSON-parse failure
after a 200 all classify as retryable. -/
theorem retryable_advances_in_order
    (idna : String → Except String String) (parseUri : String → Except String Unit)
    (name ascii : String) (rtype : Nat × String)
    (pre post : List ServerBehavior) (s : ServerBehavior) (res : DnsResponse)
    (hname : idna name = Except.ok ascii)
    (hpre : ∀ b ∈ pre, retryableServer parseUri ascii rtype.snd b)
    (hparse : parseUri (buildUrl s.uri ascii rtype.snd) = Except.ok ())
    (hout : s.outcome = TransportOutcome.response 200 (BodyResult.bytes (Except.ok res)))
    (hst : res.Status = 0) :
    (requestAndProcess idna parseUri name rtype (pre ++ s :: post) =
      (Except.ok ((res.Answer.getD []).filter fun a => a.type == rtype.fst || rtype.fst == 0),
       pre.map (fun b => buildUrl b.uri ascii rtype.snd) ++ [buildUrl s.uri ascii rtype.snd])) ∧
    (∀ (d : String) (o : TransportOutcome),
      (o = TransportOutcome.timedOut ∨ (∃ m, o = TransportOutcome.connErr m) ∨
       (∃ bd, o = TransportOutcome.response 429 bd) ∨
       (∃ bd, o = TransportOutcome.response 500 bd) ∨
       (∃ bd, o = TransportOutcome.response 502 bd) ∨
       (∃ bd, o = TransportOutcome.response 504 bd) ∨
       (∃ m, o = TransportOutcome.response 200 (BodyResult.readErr m)) ∨
       (∃ m, o = TransportOutcome.response 200 (BodyResult.bytes (Except.error m))) ∨
       (∃ c bd, o = TransportOutcome.response c bd ∧ c ≠ 200 ∧ c ≠ 400 ∧ c ≠ 413 ∧
         c ≠ 414 ∧ c ≠ 415 ∧ c ≠ 501 ∧ c ≠ 429 ∧ c ≠ 500 ∧ c ≠ 502 ∧ c ≠ 504)) →
      ∃ e, attemptStep d o = StepResult.retry e) := by
  constructor
  · have hstep : attemptStep s.timeoutDesc s.outcome = StepResult.success res := by
      rw [hout]
      simp [attemptStep]
    have hcr : clientRequest idna parseUri name rtype.snd (pre ++ s :: post) =
        (Except.ok res,
         pre.map (fun b => buildUrl b.uri ascii rtype.snd) ++ [buildUrl s.uri ascii rtype.snd]) := by
      rw [clientRequest_eval idna parseUri name ascii rtype.snd _ hname]
      rw [clientRequestLoop_skip parseUri ascii rtype.snd pre (s :: post) QueryError.Unknown hpre]
      rw [clientRequestLoop_cons_success parseUri ascii rtype.snd s post
        (threadErr pre QueryError.Unknown) res hparse hstep]
    simp only [requestAndProcess, hcr]
    simp [processResponse, hst, RCode.fromU32]
  · intro d o ho
    rcases ho with rfl | ⟨m, rfl⟩ | ⟨bd, rfl⟩ | ⟨bd, rfl⟩ | ⟨bd, rfl⟩ | ⟨bd, rfl⟩ |
      ⟨m, rfl⟩ | ⟨m, rfl⟩ | ⟨c, bd, rfl, h200, h400, h413, h414, h415, h501, h429, h500, h502, h504⟩
    · exact ⟨_, rfl⟩
    · exact ⟨_, rfl⟩
    · simp [attemptStep]
    · simp [attemptStep]
    · simp [attemptStep]
    · simp [attemptStep]
    · simp [attemptStep]
    · simp [attemptStep]
    · simp [attemptStep, h200, h400, h413, h414, h415, h501, h429, h500, h502, h504]

/-- C4 witness: server1 answers HTTP 429, server2 answers 200 with
`Status = 0`; the call succeeds with server2's processed answers (the
A-type filter retains only `ansA`) and the contact trace shows server1's
URL strictly before server2's. -/
theorem retryable_advances_in_order_witness :
    requestAndProcess idnaOk parseUriOk "example.com" (1, "a")
      (statusServer "https://one.example/resolve" 429 ::
        [okServer "https://two.example/resolve" respFilter]) =
      (Except.ok [ansA],
       ["https://one.example/resolve?name=example.com&type=a",
        "https://two.example/resolve?name=example.com&type=a"]) :=
  (retryable_advances_in_order idnaOk parseUriOk "example.com" "example.com" (1, "a")
    [statusServer "https://one.example/resolve" 429] []
    (okServer "https://two.example/resolve" respFilter) respFilter rfl
    (by
      intro b hb
      rw [List.mem_singleton] at hb
      rw [hb]
      exact ⟨rfl, QueryError.TooManyRequests429, rfl⟩)
    rfl rfl rfl).1

/-- C5: when every server in a non-empty sequence (written `init ++ [b]`)
fails retryably, the call fails with the retryable failure observed on the
last server, wrapped as a call-level `Query` error, after contacting every
server in order. -/
theorem exhausted_servers_return_last_retryable
    (idna : String → Except String String) (parseUri : String → Except String Unit)
    (name ascii : String) (rtype : Nat × String)
    (init : List ServerBehavior) (b : ServerBehavior) (e : QueryError)
    (hname : idna name = Except.ok ascii)
    (hall : ∀ x ∈ init ++ [b], retryableServer parseUri ascii rtype.snd x)
    (hb : attemptStep b.timeoutDesc b.outcome = StepResult.retry e) :
    requestAndProcess idna parseUri name rtype (init ++ [b]) =
      (Except.error (DnsError.Query e),
       (init ++ [b]).map (fun x => buildUrl x.uri ascii rtype.snd)) := by
  have hcr : clientRequest idna parseUri name rtype.snd (init ++ [b]) =
      (Except.error e, (init ++ [b]).map (fun x => buildUrl x.uri ascii rtype.snd)) := by
    rw [clientRequest_eval idna parseUri name ascii rtype.snd _ hname]
    have hskip := clientRequestLoop_skip parseUri ascii rtype.snd (init ++ [b]) []
      QueryError.Unknown hall
    rw [List.append_nil] at hskip
    rw [hskip]
    have herr : threadErr (init ++ [b]) QueryError.Unknown = e := by
      rw [threadErr_append]
      simp [threadErr, hb]
    rw [herr]
    simp [clientRequestLoop]
  simp only [requestAndProcess, hcr]
  simp [processResponse]

/-- C5 witness: server1 answers HTTP 429 and server2 answers HTTP 502; both
are retryable, the sequence is exhausted, and the call fails with the last
observed retryable failure `Query BadGateway502` after contacting both
servers in order. -/
theorem exhausted_servers_return_last_retryable_witness :
    requestAndProcess idnaOk parseUriOk "example.com" (1, "a")
      [statusServer "https://one.example/resolve" 429,
       statusServer "https://two.example/resolve" 502] =
      (Except.error (DnsError.Query QueryError.BadGateway502),
       ["https://one.example/resolve?name=example.com&type=a",
        "https://two.example/resolve?name=example.com&type=a"]) :=
  exhausted_servers_return_last_retryable idnaOk parseUriOk "example.com" "example.com" (1, "a")
    [statusServer "https://one.example/resolve" 429]
    (statusServer "https://two.example/resolve" 502) QueryError.BadGateway502 rfl
    (by
      intro x hx
      rcases List.mem_append.mp hx with h1 | h2
      · rw [List.mem_singleton] at h1
        rw [h1]
        exact ⟨rfl, QueryError.TooManyRequests429, rfl⟩
      · rw [List.mem_singleton] at h2
        rw [h2]
        exact ⟨rfl, QueryError.BadGateway502, rfl⟩)
    rfl

/-- C6: after a successful decode, `Status = 0` is the only success path.
First conjunct: when the decoded response from server `s` has a `Status`
classifying as an error (a recognized nonzero RCode, or `Unknown` for an
unrecognized numeric value), the call fails immediately with that status
error and the contact trace stops at `s`, even if further servers are
configured.  Second conjunct: the status classification succeeds exactly at
`Status = 0`. -/
theorem nonzero_status_fails_immediately
    (idna : String → Except String String) (parseUri : String → Except String Unit)
    (name ascii : String) (rtype : Nat × String)
    (pre post : List ServerBehavior) (s : ServerBehavior) (res : DnsResponse) (c : RCode)
    (hname : idna name = Except.ok ascii)
    (hpre : ∀ b ∈ pre, retryableServer parseUri ascii rtype.snd b)
    (hparse : parseUri (buildUrl s.uri ascii rtype.snd) = Except.ok ())
    (hout : s.outcome = TransportOutcome.response 200 (BodyResult.bytes (Except.ok res)))
    (hc : statusError res.Status = some c) :
    (requestAndProcess idna parseUri name rtype (pre ++ s :: post) =
      (Except.error (DnsError.Status c),
       pre.map (fun b => buildUrl b.uri ascii rtype.snd) ++ [buildUrl s.uri ascii rtype.snd])) ∧
    (∀ n, statusError n = none ↔ n = 0) := by
  constructor
  · have hstep : attemptStep s.timeoutDesc s.outcome = StepResult.success res := by
      rw [hout]
      simp [attemptStep]
    have hcr : clientRequest idna parseUri name rtype.snd (pre ++ s :: post) =
        (Except.ok res,
         pre.map (fun b => buildUrl b.uri ascii rtype.snd) ++ [buildUrl s.uri ascii rtype.snd]) := by
      rw [clientRequest_eval idna parseUri name ascii rtype.snd _ hname]
      rw [clientRequestLoop_skip parseUri ascii rtype.snd pre (s :: post) QueryError.Unknown hpre]
      rw [clientRequestLoop_cons_success parseUri ascii rtype.snd s post
        (threadErr pre QueryError.Unknown) res hparse hstep]
    simp only [requestAndProcess, hcr]
    unfold statusError at hc
    rcases hf : RCode.fromU32 res.Status with _ | code
    · rw [hf] at hc
      simp only [Option.some.injEq] at hc
      subst hc
      simp [processResponse, hf]
    · rw [hf] at hc
      cases code
      · cases hc
      all_goals
        simp only [Option.some.injEq] at hc
        subst hc
        simp [processResponse, hf]
  · intro n
    unfold statusError RCode.fromU32
    split_ifs with h0 h1 h2 h3 h4 h5 <;> simp_all

/-- C6 witness: a 200 response with `Status = 3` (recognized, NXDOMAIN)
makes the call fail with `Status NXDomain`; the second configured server is
never contacted. -/
theorem nonzero_status_fails_immediately_witness :
    requestAndProcess idnaOk parseUriOk "example.com" (1, "a")
      (okServer "https://one.example/resolve" respNx ::
        [okServer "https://two.example/resolve" respFilter]) =
      (Except.error (DnsError.Status RCode.NXDomain),
       ["https://one.example/resolve?name=example.com&type=a"]) :=
  (nonzero_status_fails_immediately idnaOk parseUriOk "example.com" "example.com" (1, "a")
    [] [okServer "https://two.example/resolve" respFilter]
    (okServer "https://one.example/resolve" respNx) respNx RCode.NXDomain rfl
    (fun b hb => absurd hb (List.not_mem_nil b)) rfl rfl rfl).1

/-- C7: for a non-MX resolve with requested type code `T` (paired with its
name), a successfully decoded `Status = 0` answer list yields exactly the
answers whose `type` equals `T` - all of them when `T = 0` (ANY) - in
decoded order with all fields unmodified (the result is a sublist of the
decoded list). -/
theorem generic_filter_by_requested_type
    (idna : String → Except String String) (parseUri : String → Except String Unit)
    (name : String) (rtype : Nat × String) (servers : List ServerBehavior) (res : DnsResponse)
    (hres : (clientRequest idna parseUri name rtype.snd servers).fst = Except.ok res)
    (hst : res.Status = 0) :
    ∃ out, (requestAndProcess idna parseUri name rtype servers).fst = Except.ok out ∧
      out = (res.Answer.getD []).filter (fun a => a.type == rtype.fst || rtype.fst == 0) ∧
      out.Sublist (res.Answer.getD []) ∧
      (∀ a, a ∈ out ↔ a ∈ res.Answer.getD [] ∧ (a.type = rtype.fst ∨ rtype.fst = 0)) ∧
      (rtype.fst = 0 → out = res.Answer.getD []) := by
  refine ⟨(res.Answer.getD []).filter (fun a => a.type == rtype.fst || rtype.fst == 0),
    ?_, rfl, List.filter_sublist _, ?_, ?_⟩
  · simp only [requestAndProcess]
    rw [hres]
    simp [processResponse, hst, RCode.fromU32]
  · intro a
    simp [List.mem_filter]
  · intro h
    refine List.filter_eq_self.mpr ?_
    intro a _
    rw [h]
    simp

/-- C7 witness: an A-type resolve (`T = 1`) over a decoded answer list
containing a type-1 and a type-5 record retains exactly the type-1 record,
verbatim. -/
theorem generic_filter_by_requested_type_witness :
    ∃ out, (requestAndProcess idnaOk parseUriOk "example.com" (1, "a")
        [okServer "https://dns.google/resolve" respFilter]).fst = Except.ok out ∧
      out = (respFilter.Answer.getD []).filter (fun a => a.type == (1, "a").fst || (1, "a").fst == 0) ∧
      out.Sublist (respFilter.Answer.getD []) ∧
      (∀ a, a ∈ out ↔ a ∈ respFilter.Answer.getD [] ∧ (a.type = (1, "a").fst ∨ (1, "a").fst = 0)) ∧
      ((1, "a").fst = 0 → out = respFilter.Answer.getD []) :=
  generic_filter_by_requested_type idnaOk parseUriOk "example.com" (1, "a")
    [okServer "https://dns.google/resolve" respFilter] respFilter rfl rfl

/-- C8: resolving by record-type name lowercases the name and dispatches
through the registry: a recognized name resolves exactly as the dedicated
per-type operation at the registered `(code, name)` pair (shown generally,
and concretely for `"AAAA"`/`"aaaa"` against the dedicated AAAA resolver),
and an unrecognized name fails with `InvalidRecordType`. -/
theorem resolve_by_name_dispatch
    (idna : String → Except String String) (parseUri : String → Except String Unit)
    (domain s : String) (servers : List ServerBehavior) :
    (∀ code, rtypes.lookup (toAsciiLower s) = some code →
       resolveStrType idna parseUri domain s servers =
         requestAndProcess idna parseUri domain (code, toAsciiLower s) servers) ∧
    (rtypes.lookup (toAsciiLower s) = none →
       resolveStrType idna parseUri domain s servers =
         (Except.error DnsError.InvalidRecordType, [])) ∧
    resolveStrType idna parseUri domain "AAAA" servers =
      resolve_aaaa idna parseUri domain servers ∧
    resolveStrType idna parseUri domain "aaaa" servers =
      resolve_aaaa idna parseUri domain servers ∧
    resolveStrType idna parseUri domain "bogus" servers =
      (Except.error DnsError.InvalidRecordType, []) := by
  refine ⟨?_, ?_, rfl, rfl, rfl⟩
  · intro code hc
    simp only [resolveStrType, hc]
  · intro hc
    simp only [resolveStrType, hc]

/-- C8 witness: `"MX"` dispatches (case-insensitively) to the generic
resolver at `(15, "mx")`, and `"bogus"` fails with `InvalidRecordType`. -/
theorem resolve_by_name_dispatch_witness :
    resolveStrType idnaOk parseUriOk "example.com" "MX"
      [okServer "https://dns.google/resolve" respEmpty] =
      requestAndProcess idnaOk parseUriOk "example.com" (15, "mx")
        [okServer "https://dns.google/resolve" respEmpty] ∧
    resolveStrType idnaOk parseUriOk "example.com" "bogus"
      [okServer "https://dns.google/resolve" respEmpty] =
      (Except.error DnsError.InvalidRecordType, []) :=
  ⟨(resolve_by_name_dispatch idnaOk parseUriOk "example.com" "MX"
      [okServer "https://dns.google/resolve" respEmpty]).1 15 rfl,
   (resolve_by_name_dispatch idnaOk parseUriOk "example.com" "bogus"
      [okServer "https://dns.google/resolve" respEmpty]).2.2.2.2⟩

/-- The contacted URLs are always an order-preserving front segment of the
URLs built from the configured servers and the encoded name. -/
theorem clientRequestLoop_urls_take (parseUri : String → Except String Unit)
    (name typeName : String) :
    ∀ (servers : List ServerBehavior) (err : QueryError),
      ∃ k, (clientRequestLoop parseUri name typeName servers err).snd =
        (servers.map (fun b => buildUrl b.uri name typeName)).take k
  | [], err => ⟨0, by simp [clientRequestLoop]⟩
  | b :: rest, err => by
    rcases hp : parseUri (buildUrl b.uri name typeName) with e | u
    · exact ⟨0, by simp [clientRequestLoop, hp]⟩
    · rcases hs : attemptStep b.timeoutDesc b.outcome with res | e | e
      · exact ⟨1, by simp [clientRequestLoop, hp, hs]⟩
      · exact ⟨1, by simp [clientRequestLoop, hp, hs]⟩
      · obtain ⟨k, hk⟩ := clientRequestLoop_urls_take parseUri name typeName rest e
        exact ⟨k + 1, by simp [clientRequestLoop, hp, hs, hk]⟩

/-- C9: the domain is IDNA/punycode-encoded before being placed in the
query string.  First conjunct: an encoding failure fails the call with
`InvalidName` and the contact trace is empty (no server contacted).  Second
conjunct: on encoding success every contacted URL is built from the encoded
name (the trace is a front segment of the per-server URLs built with the
encoded name). -/
theorem idna_encoding_before_query
    (idna : String → Except String String) (parseUri : String → Except String Unit)
    (domain typeName : String) (servers : List ServerBehavior) :
    (∀ e, idna domain = Except.error e →
       clientRequest idna parseUri domain typeName servers =
         (Except.error (QueryError.InvalidName e), [])) ∧
    (∀ ascii, idna domain = Except.ok ascii →
       ∃ k, (clientRequest idna parseUri domain typeName servers).snd =
         (servers.map (fun b => buildUrl b.uri ascii typeName)).take k) := by
  constructor
  · intro e he
    simp only [clientRequest, he]
  · intro ascii ha
    rw [clientRequest_eval idna parseUri domain ascii typeName servers ha]
    exact clientRequestLoop_urls_take parseUri ascii typeName servers QueryError.Unknown

/-- C9 witness: a failing encoding yields `InvalidName "Errors"` with no
contact; a successful encoding of an ASCII name contacts URLs built from
the encoded name. -/
theorem idna_encoding_before_query_witness :
    clientRequest (fun _ => Except.error "Errors") parseUriOk "exaample.com" "a"
      [statusServer "https://one.example/resolve" 429] =
      (Except.error (QueryError.InvalidName "Errors"), []) ∧
    (∃ k, (clientRequest idnaOk parseUriOk "example.com" "a"
        [statusServer "https://one.example/resolve" 429]).snd =
      ([statusServer "https://one.example/resolve" 429].map
        (fun b => buildUrl b.uri "example.com" "a")).take k) :=
  ⟨(idna_encoding_before_query (fun _ => Except.error "Errors") parseUriOk "exaample.com" "a"
      [statusServer "https://one.example/resolve" 429]).1 "Errors" rfl,
   (idna_encoding_before_query idnaOk parseUriOk "example.com" "a"
      [statusServer "https://one.example/resolve" 429]).2 "example.com" rfl⟩

/-- C10: a successfully decoded response with `Status = 0` and an absent
`Answer` field yields a successful empty answer list, not an error - for
the generic resolve (first conjunct) and for the MX resolve, whose only
admitted outcome is the empty success (second conjunct). -/
theorem absent_answer_yields_empty_success
    (idna : String → Except String String) (parseUri : String → Except String Unit)
    (name : String) (res : DnsResponse)
    (hst : res.Status = 0) (hans : res.Answer = none) :
    (∀ (rtype : Nat × String) (servers : List ServerBehavior),
       (clientRequest idna parseUri name rtype.snd servers).fst = Except.ok res →
       (requestAndProcess idna parseUri name rtype servers).fst = Except.ok []) ∧
    (∀ (servers : List ServerBehavior) (out : Except DnsError (List DnsAnswer)),
       (clientRequest idna parseUri name RTYPE_mx.snd servers).fst = Except.ok res →
       resolveMxRel idna parseUri name servers out → out = Except.ok []) := by
  constructor
  · intro rtype servers hres
    simp only [requestAndProcess]
    rw [hres]
    simp [processResponse, hst, hans, RCode.fromU32]
  · intro servers out hres hrel
    unfold resolveMxRel at hrel
    rw [hres] at hrel
    simp only [mxDispatch, hst, hans, RCode.fromU32, if_pos rfl, Option.getD_none,
      mxPairs, List.filterMap_nil] at hrel
    obtain ⟨l, ⟨ps, hperm, hsort, hl⟩, hout⟩ := hrel
    have hps : ps = [] := hperm.symm.eq_nil
    rw [hout, hl, hps]
    rfl

/-- C10 witness: a decoded `Status = 0` response with `Answer` absent makes
an A-type resolve return `ok []`, and `ok []` is the MX outcome admitted
for it. -/
theorem absent_answer_yields_empty_success_witness :
    (requestAndProcess idnaOk parseUriOk "example.com" (1, "a")
        [okServer "https://dns.google/resolve" respEmpty]).fst =
      Except.ok [] ∧
    (Except.ok ([] : List DnsAnswer) : Except DnsError (List DnsAnswer)) = Except.ok [] :=
  ⟨(absent_answer_yields_empty_success idnaOk parseUriOk "example.com" respEmpty rfl rfl).1
      (1, "a") [okServer "https://dns.google/resolve" respEmpty] rfl,
   (absent_answer_yields_empty_success idnaOk parseUriOk "example.com" respEmpty rfl rfl).2
      [okServer "https://dns.google/resolve" respEmpty] (Except.ok []) rfl
      ⟨[], ⟨[], List.Perm.nil, List.Pairwise.nil, rfl⟩, rfl⟩⟩
